import Mathlib

/-!
Verification of the SMTP mailer in the AgencyFlow notification functions.

The model below is a shallow embedding of the `sendEmail` functions in
`supabase/functions/send-task-notification/index.ts`,
`supabase/functions/send-assignment-notification/index.ts` and
`supabase/functions/send-project-member-notification/index.ts`, together with
the tail of the HTTP handlers that call them.

Network I/O is modelled by an `Oracle` that decides, for every attempted
operation, whether it succeeds and (for reads) which bytes the server sent.
A run of `sendEmail` produces the trace of I/O events it performed together
with its outcome (a returned value, or a thrown error that propagates to the
caller).  Server replies are carried as `String`s; a reply's characters stand
for the raw bytes the peer sent.
-/

namespace Smtp

/-- Environment variables read by `sendEmail` via `Deno.env.get`; `none`
models an unset variable. -/
structure SmtpEnv where
  SMTP_HOST : Option String
  SMTP_PORT : Option String
  SMTP_USER : Option String
  SMTP_PASSWORD : Option String
deriving Repr, DecidableEq

/-- One observable I/O event of a run: the `Deno.connect` attempt, the
`Deno.startTls` attempt, a `tlsConn.read` into a buffer of the given size
receiving the given server bytes, a `tlsConn.write` of the given bytes, and
`tlsConn.close`. -/
inductive Event where
  | connect (host : Option String) (port : Option Nat)
  | startTls (host : Option String)
  | read (bufSize : Nat) (reply : String)
  | write (data : String)
  | close
deriving Repr, DecidableEq

/-- Outcome of a call to `sendEmail`: it returned normally with a boolean, or
an error was thrown out of it (the `catch` block rethrows every error). -/
inductive Outcome where
  | ret (b : Bool)
  | thrown
deriving Repr, DecidableEq

/-- The I/O behaviour of the outside world for one run: whether the TCP
connect succeeds, whether the TLS handshake succeeds, the result of each
successive read (`some bytes`, or `none` when the read throws), and whether
each successive write succeeds.  An exhausted list also means failure. -/
structure Oracle where
  connectOk : Bool
  tlsOk : Bool
  readResults : List (Option String)
  writeResults : List Bool
deriving Repr

/-- The character table of standard Base64. -/
def b64Char (n : Nat) : Char :=
  ("ABCDEFGHIJKLMNOPQRSTUVWXYZabcdefghijklmnopqrstuvwxyz0123456789+/").toList.getD n '='

/-- Standard Base64 of a byte sequence, three bytes at a time, with `=`
padding. -/
def base64Encode : List Nat → String
  | [] => ""
  | [a] => String.mk [b64Char (a / 4), b64Char (a % 4 * 16), '=', '=']
  | [a, b] => String.mk [b64Char (a / 4), b64Char (a % 4 * 16 + b / 16), b64Char (b % 16 * 4), '=']
  | a :: b :: c :: rest =>
      String.mk [b64Char (a / 4), b64Char (a % 4 * 16 + b / 16),
                 b64Char (b % 16 * 4 + c / 64), b64Char (c % 64)] ++ base64Encode rest

/-- The JS `btoa` builtin used by the source: Base64 of the string's code
units (the sources only pass Latin-1 text, for which code points are the code
units). -/
def btoa (s : String) : String := base64Encode (s.toList.map Char.toNat)

/-- Coercion of a possibly-undefined JS value into the text a template
literal or `btoa` produces for it: `undefined` prints as "undefined".  The
task-notification `sendEmail` applies `smtpHost!`/`smtpUser!` without a
runtime check, so an unset variable flows into the payload this way. -/
def optStr : Option String → String
  | some s => s
  | none => "undefined"

/-- The JS `||` defaulting idiom `Deno.env.get("SMTP_PORT") || "465"`:
`undefined` and the empty string are falsy. -/
def jsOr (v : Option String) (d : String) : String :=
  match v with
  | none => d
  | some s => if s.isEmpty then d else s

/-- The JS `parseInt` restricted to the plain decimal strings this code path
feeds it; `none` models `NaN`. -/
def jsParseInt (s : String) : Option Nat :=
  match s.toList with
  | [] => none
  | cs => if cs.all (fun c => c.isDigit) then
            some (cs.foldl (fun n c => n * 10 + (c.toNat - 48)) 0)
          else none

/-- Truthiness test applied by the guard `if (!smtpHost || !smtpUser ||
!smtpPassword)`: `undefined` and the empty string are falsy. -/
def falsy : Option String → Bool
  | none => true
  | some s => s.isEmpty

/-- The missing-configuration guard of the assignment- and
project-member-notification `sendEmail` functions. -/
def missingConfig (env : SmtpEnv) : Bool :=
  falsy env.SMTP_HOST || falsy env.SMTP_USER || falsy env.SMTP_PASSWORD

/-- The DATA-phase payload assembled by `sendEmail`: the exact template
literal `From: ...\r\nTo: ...\r\nSubject: ...\r\nContent-Type: text/html;
charset=utf-8\r\n\r\n<body>\r\n.\r\n`. -/
def emailContent (user toAddr subject body : String) : String :=
  "From: " ++ user ++ "\r\nTo: " ++ toAddr ++ "\r\nSubject: " ++ subject ++
    "\r\nContent-Type: text/html; charset=utf-8\r\n\r\n" ++ body ++ "\r\n.\r\n"

/-- One step of the SMTP dialogue: a read of the server's response, or a
write of the given bytes. -/
inductive Act where
  | read
  | write (data : String)
deriving Repr, DecidableEq

/-- The fixed dialogue `sendEmail` drives after the TLS handshake, in source
order: read greeting; EHLO; AUTH LOGIN; Base64 username; Base64 password;
MAIL FROM; RCPT TO; DATA; message content; QUIT — each write followed by one
read of the response. -/
def script (host user pass toAddr subject body : String) : List Act :=
  [Act.read,
   Act.write ("EHLO " ++ host ++ "\r\n"), Act.read,
   Act.write ("AUTH LOGIN\r\n"), Act.read,
   Act.write (btoa user ++ "\r\n"), Act.read,
   Act.write (btoa pass ++ "\r\n"), Act.read,
   Act.write ("MAIL FROM:<" ++ user ++ ">\r\n"), Act.read,
   Act.write ("RCPT TO:<" ++ toAddr ++ ">\r\n"), Act.read,
   Act.write ("DATA\r\n"), Act.read,
   Act.write (emailContent user toAddr subject body), Act.read,
   Act.write ("QUIT\r\n"), Act.read]

/-- Runs the dialogue: each read consumes the next oracle read result into a
`new Uint8Array(1024)` buffer, each write consumes the next oracle write
result; the first failing operation throws, ending the run with `false` (the
remaining steps are not attempted, mirroring exception propagation).  Returns
the events performed, in order, and whether every step succeeded. -/
def runScript : List Act → List (Option String) → List Bool → List Event × Bool
  | [], _, _ => ([], true)
  | Act.read :: rest, rs, ws =>
      match rs with
      | some reply :: more =>
          let r := runScript rest more ws
          (Event.read 1024 reply :: r.1, r.2)
      | _ => ([], false)
  | Act.write d :: rest, rs, ws =>
      match ws with
      | true :: more =>
          let r := runScript rest rs more
          (Event.write d :: r.1, r.2)
      | _ => ([], false)

/-- The body of `sendEmail` shared verbatim by the three notification
functions (the task-notification version is exactly this; the other two run
it only after their missing-configuration guard).  It connects, upgrades to
TLS, drives the dialogue of `script`, and closes the connection only on the
all-success path before returning `true`; any failure rethrows out of the
function with the connection left open (`tlsConn.close()` is only reached
after the QUIT read). -/
def sendEmailCore (env : SmtpEnv) (toAddr subject body : String) (o : Oracle) :
    List Event × Outcome :=
  if o.connectOk then
    if o.tlsOk then
      if (runScript (script (optStr env.SMTP_HOST) (optStr env.SMTP_USER)
            (optStr env.SMTP_PASSWORD) toAddr subject body)
            o.readResults o.writeResults).2 then
        (Event.connect env.SMTP_HOST (jsParseInt (jsOr env.SMTP_PORT ("465"))) ::
          Event.startTls env.SMTP_HOST ::
          ((runScript (script (optStr env.SMTP_HOST) (optStr env.SMTP_USER)
              (optStr env.SMTP_PASSWORD) toAddr subject body)
              o.readResults o.writeResults).1 ++ [Event.close]), Outcome.ret true)
      else
        (Event.connect env.SMTP_HOST (jsParseInt (jsOr env.SMTP_PORT ("465"))) ::
          Event.startTls env.SMTP_HOST ::
          (runScript (script (optStr env.SMTP_HOST) (optStr env.SMTP_USER)
            (optStr env.SMTP_PASSWORD) toAddr subject body)
            o.readResults o.writeResults).1, Outcome.thrown)
    else ([Event.connect env.SMTP_HOST (jsParseInt (jsOr env.SMTP_PORT ("465"))),
           Event.startTls env.SMTP_HOST], Outcome.thrown)
  else ([Event.connect env.SMTP_HOST (jsParseInt (jsOr env.SMTP_PORT ("465")))],
        Outcome.thrown)

/-- The commands written during a trace, in order. -/
def writesOf (t : List Event) : List String :=
  t.filterMap (fun e => match e with | Event.write d => some d | _ => none)

/-- Whether an event is the TCP connect attempt. -/
def Event.isConnect : Event → Bool
  | Event.connect _ _ => true
  | _ => false

/-- Whether an event is a close of the connection. -/
def Event.isClose : Event → Bool
  | Event.close => true
  | _ => false

/-- Whether an event is a read of a server response. -/
def Event.isRead : Event → Bool
  | Event.read _ _ => true
  | _ => false

/-- Whether a dialogue step is a read. -/
def Act.isRead : Act → Bool
  | Act.read => true
  | _ => false

/-- Bytes a read event consumes from the stream: at most the buffer size. -/
def readBytes : Event → Nat
  | Event.read bufSize reply => min reply.length bufSize
  | _ => 0

end Smtp

namespace TaskNotification

/-- The `sendEmail` of `send-task-notification/index.ts`: no
missing-configuration guard — it goes straight to `Deno.connect` using the
environment values as they are. -/
def sendEmail (env : Smtp.SmtpEnv) (toAddr subject body : String) (o : Smtp.Oracle) :
    List Smtp.Event × Smtp.Outcome :=
  Smtp.sendEmailCore env toAddr subject body o

end TaskNotification

namespace AssignmentNotification

/-- The `sendEmail` of `send-assignment-notification/index.ts`: if host,
username or password is falsy it logs and returns `false` without any
network operation; otherwise it runs the same body as the task version. -/
def sendEmail (env : Smtp.SmtpEnv) (toAddr subject body : String) (o : Smtp.Oracle) :
    List Smtp.Event × Smtp.Outcome :=
  if Smtp.missingConfig env then ([], Smtp.Outcome.ret false)
  else Smtp.sendEmailCore env toAddr subject body o

end AssignmentNotification

namespace ProjectMemberNotification

/-- The `sendEmail` of `send-project-member-notification/index.ts`, identical
to the assignment-notification one. -/
def sendEmail (env : Smtp.SmtpEnv) (toAddr subject body : String) (o : Smtp.Oracle) :
    List Smtp.Event × Smtp.Outcome :=
  if Smtp.missingConfig env then ([], Smtp.Outcome.ret false)
  else Smtp.sendEmailCore env toAddr subject body o

end ProjectMemberNotification

namespace Handler

/-- Body of an HTTP response produced by a notification handler: a JSON text
the model fully determines, or the `JSON.stringify` of a caught error object
(whose text depends on the thrown error). -/
inductive RespBody where
  | json (s : String)
  | errorJson
deriving Repr, DecidableEq

/-- An HTTP response: status code and body. -/
structure HandlerResponse where
  status : Nat
  body : RespBody
deriving Repr, DecidableEq

/-- The `JSON.stringify({ success: true, message: "Notification sent" })`
text returned by the handlers after awaiting `sendEmail`. -/
def successJson : String :=
  "\x7b\"success\":true,\"message\":\"Notification sent\"\x7d"

/-- The tail of the assignment-notification handler (source lines 203-211)
once the request has been parsed, validated and the subject and HTML body
assembled: it awaits `sendEmail(assigneeEmail, subject, emailBody)`,
discards the returned boolean, and responds 200 with the fixed success JSON;
a thrown error is caught and mapped to a 500 with
`JSON.stringify({ error: error.message })`. -/
def assignmentRespond (env : Smtp.SmtpEnv) (o : Smtp.Oracle)
    (toAddr subject emailBody : String) : HandlerResponse :=
  match (AssignmentNotification.sendEmail env toAddr subject emailBody o).2 with
  | Smtp.Outcome.ret _ => { status := 200, body := RespBody.json successJson }
  | Smtp.Outcome.thrown => { status := 500, body := RespBody.errorJson }

/-- The identical tail of the project-member-notification handler. -/
def projectMemberRespond (env : Smtp.SmtpEnv) (o : Smtp.Oracle)
    (toAddr subject emailBody : String) : HandlerResponse :=
  match (ProjectMemberNotification.sendEmail env toAddr subject emailBody o).2 with
  | Smtp.Outcome.ret _ => { status := 200, body := RespBody.json successJson }
  | Smtp.Outcome.thrown => { status := 500, body := RespBody.errorJson }

end Handler

namespace Fixtures

/-- A fully-populated SMTP configuration for concrete runs. -/
def envEx : Smtp.SmtpEnv :=
  ⟨some ("smtp.example.com"), some ("465"), some ("alice"), some ("hunter2")⟩

/-- An entirely unset SMTP configuration: no host, port, user or password. -/
def envNone : Smtp.SmtpEnv := ⟨none, none, none, none⟩

/-- Nine successful writes, one per command of the dialogue. -/
def allWritesOk : List Bool := [true, true, true, true, true, true, true, true, true]

/-- Replies of a fully cooperating server. -/
def okReplies : List (Option String) :=
  [some ("220 smtp.example.com ESMTP"), some ("250 ok"), some ("334 VXNlcm5hbWU6"),
   some ("334 UGFzc3dvcmQ6"), some ("235 2.7.0 accepted"), some ("250 2.1.0 ok"),
   some ("250 2.1.5 ok"), some ("354 go ahead"), some ("250 2.0.0 queued"),
   some ("221 2.0.0 bye")]

/-- Replies of a server whose greeting is a 554 session rejection. -/
def badGreetingReplies : List (Option String) :=
  [some ("554 5.3.2 service unavailable"), some ("250 ok"), some ("334 VXNlcm5hbWU6"),
   some ("334 UGFzc3dvcmQ6"), some ("235 2.7.0 accepted"), some ("250 2.1.0 ok"),
   some ("250 2.1.5 ok"), some ("354 go ahead"), some ("250 2.0.0 queued"),
   some ("221 2.0.0 bye")]

/-- Replies of a server that answers the password line with 535. -/
def authRejectReplies : List (Option String) :=
  [some ("220 smtp.example.com ESMTP"), some ("250 ok"), some ("334 VXNlcm5hbWU6"),
   some ("334 UGFzc3dvcmQ6"), some ("535 5.7.8 authentication failed"),
   some ("250 2.1.0 ok"), some ("250 2.1.5 ok"), some ("354 go ahead"),
   some ("250 2.0.0 queued"), some ("221 2.0.0 bye")]

/-- An oracle for a fully successful session. -/
def okOracle : Smtp.Oracle := ⟨true, true, okReplies, allWritesOk⟩

/-- An oracle whose server rejects the session in the greeting. -/
def badGreetingOracle : Smtp.Oracle := ⟨true, true, badGreetingReplies, allWritesOk⟩

/-- An oracle whose server rejects authentication with 535. -/
def authRejectOracle : Smtp.Oracle := ⟨true, true, authRejectReplies, allWritesOk⟩

/-- An oracle whose very first read (the greeting) throws an I/O error. -/
def readFailOracle : Smtp.Oracle := ⟨true, true, [none], []⟩

/-- An oracle whose TCP connect fails. -/
def connectFailOracle : Smtp.Oracle := ⟨false, false, [], []⟩

end Fixtures

namespace Smtp

/-- Every event produced by the dialogue runner is a read into a 1024-byte
buffer or a write of a command; connect, TLS and close events never originate
inside the dialogue. -/
theorem runScript_events (acts : List Act) (rs : List (Option String)) (ws : List Bool) :
    ∀ e ∈ (runScript acts rs ws).1,
      (∃ r, e = Event.read 1024 r) ∨ (∃ d, e = Event.write d) := by
  induction acts generalizing rs ws with
  | nil => intro e he; simp [runScript] at he
  | cons a rest ih =>
      intro e he
      cases a with
      | read =>
          rcases rs with _ | ⟨r, more⟩
          · simp [runScript] at he
          · rcases r with _ | reply
            · simp [runScript] at he
            · simp only [runScript] at he
              rcases List.mem_cons.mp he with h | h
              · exact Or.inl ⟨reply, h⟩
              · exact ih more ws e h
      | write d =>
          rcases ws with _ | ⟨b, more⟩
          · simp [runScript] at he
          · rcases b with _ | _
            · simp [runScript] at he
            · simp only [runScript] at he
              rcases List.mem_cons.mp he with h | h
              · exact Or.inr ⟨d, h⟩
              · exact ih rs more e h

/-- The dialogue runner performs at most one read event per read step of the
script. -/
theorem runScript_countRead_le (acts : List Act) (rs : List (Option String)) (ws : List Bool) :
    ((runScript acts rs ws).1.countP Event.isRead) ≤ acts.countP Act.isRead := by
  induction acts generalizing rs ws with
  | nil => simp [runScript]
  | cons a rest ih =>
      cases a with
      | read =>
          rcases rs with _ | ⟨r, more⟩
          · simp [runScript]
          · rcases r with _ | reply
            · simp [runScript]
            · have h := ih more ws
              simp only [runScript, List.countP_cons, Event.isRead, Act.isRead]
              simp only [List.countP_cons] at h ⊢
              omega
      | write d =>
          rcases ws with _ | ⟨b, more⟩
          · simp [runScript]
          · rcases b with _ | _
            · simp [runScript]
            · have h := ih rs more
              simp only [runScript, List.countP_cons, Event.isRead, Act.isRead]
              simp only [List.countP_cons] at h ⊢
              omega

/-- The dialogue runner never emits a connect event. -/
theorem runScript_countConnect (acts : List Act) (rs : List (Option String)) (ws : List Bool) :
    ((runScript acts rs ws).1.countP Event.isConnect) = 0 :=
  List.countP_eq_zero.mpr (fun e he => by
    rcases runScript_events acts rs ws e he with ⟨r, rfl⟩ | ⟨d, rfl⟩ <;> simp [Event.isConnect])

/-- The dialogue runner never emits a close event. -/
theorem runScript_countClose (acts : List Act) (rs : List (Option String)) (ws : List Bool) :
    ((runScript acts rs ws).1.countP Event.isClose) = 0 :=
  List.countP_eq_zero.mpr (fun e he => by
    rcases runScript_events acts rs ws e he with ⟨r, rfl⟩ | ⟨d, rfl⟩ <;> simp [Event.isClose])

end Smtp

open Smtp

/-- C1 counterexample: on a session whose greeting is `554 5.3.2 service
unavailable` (leading status digit 5, not the expected 2), `sendEmail` does
not abort: it still performs all nine command writes and returns `true`
instead of surfacing any protocol error. -/
theorem protocol_abort_counterexample :
    (TaskNotification.sendEmail Fixtures.envEx ("rcpt@example.com") ("Hello")
        ("<p>Hi</p>") Fixtures.badGreetingOracle).2 = Outcome.ret true ∧
    (writesOf (TaskNotification.sendEmail Fixtures.envEx ("rcpt@example.com") ("Hello")
        ("<p>Hi</p>") Fixtures.badGreetingOracle).1).length = 9 :=
  ⟨rfl, rfl⟩

/-- C1 (amended): `sendEmail` never inspects a server reply.  Whatever bytes
the server sends at each of the ten response points — in particular a
greeting whose leading digit is not 2 — the run performs all nine command
writes, closes the connection once, and returns `true`; reply content never
aborts the sequence and no protocol error is ever produced.  Only an I/O
failure aborts a session, by propagating a thrown error. -/
theorem replies_never_abort_session (env : SmtpEnv) (toAddr subject body : String)
    (r0 r1 r2 r3 r4 r5 r6 r7 r8 r9 : String) :
    (TaskNotification.sendEmail env toAddr subject body
      ⟨true, true, [some r0, some r1, some r2, some r3, some r4, some r5, some r6,
        some r7, some r8, some r9],
       [true, true, true, true, true, true, true, true, true]⟩).2 = Outcome.ret true ∧
    (writesOf (TaskNotification.sendEmail env toAddr subject body
      ⟨true, true, [some r0, some r1, some r2, some r3, some r4, some r5, some r6,
        some r7, some r8, some r9],
       [true, true, true, true, true, true, true, true, true]⟩).1).length = 9 ∧
    ((TaskNotification.sendEmail env toAddr subject body
      ⟨true, true, [some r0, some r1, some r2, some r3, some r4, some r5, some r6,
        some r7, some r8, some r9],
       [true, true, true, true, true, true, true, true, true]⟩).1.countP Event.isClose) = 1 :=
  ⟨rfl, rfl, rfl⟩

/-- C2 counterexample: when the greeting read throws an I/O error, the error
propagates out of `sendEmail` with the TLS connection left open — the exit
path contains no close event at all, so the handle is not closed exactly
once on every exit path. -/
theorem close_on_error_counterexample :
    TaskNotification.sendEmail Fixtures.envEx ("rcpt@example.com") ("Hello") ("<p>Hi</p>")
        Fixtures.readFailOracle =
      ([Event.connect (some ("smtp.example.com")) (some 465),
        Event.startTls (some ("smtp.example.com"))], Outcome.thrown) ∧
    ((TaskNotification.sendEmail Fixtures.envEx ("rcpt@example.com") ("Hello") ("<p>Hi</p>")
        Fixtures.readFailOracle).1.countP Event.isClose) = 0 :=
  ⟨rfl, rfl⟩

/-- C2 (amended): the connection is closed exactly once on the all-success
path, and never on any error path: for every oracle, the number of close
events is 1 when `sendEmail` returns `true` and 0 when the run throws —
TLS failure, read failure, write failure and connect failure all leak the
handle. -/
theorem close_count_success_only (env : SmtpEnv) (toAddr subject body : String) (o : Oracle) :
    ((TaskNotification.sendEmail env toAddr subject body o).1.countP Event.isClose) =
      (if (TaskNotification.sendEmail env toAddr subject body o).2 = Outcome.ret true
       then 1 else 0) := by
  unfold TaskNotification.sendEmail sendEmailCore
  rcases o with ⟨co, tls, rs, ws⟩
  cases co
  · simp [Event.isClose, List.countP_cons]
  · cases tls
    · simp [Event.isClose, List.countP_cons]
    · cases hok : (runScript (script (optStr env.SMTP_HOST) (optStr env.SMTP_USER)
          (optStr env.SMTP_PASSWORD) toAddr subject body) rs ws).2
      · simp [hok, Event.isClose, List.countP_cons, runScript_countClose]
      · simp [hok, Event.isClose, List.countP_cons, List.countP_append,
          runScript_countClose]

/-- C3 counterexample: the task-notification `sendEmail` has no
missing-configuration guard: with every SMTP variable unset it still attempts
a TCP connection (to hostname `undefined` with the default port 465) instead
of reporting a configuration/skip condition with zero network I/O. -/
theorem missing_config_connects_counterexample :
    TaskNotification.sendEmail Fixtures.envNone ("rcpt@example.com") ("Hello") ("<p>Hi</p>")
        Fixtures.connectFailOracle =
      ([Event.connect none (some 465)], Outcome.thrown) :=
  rfl

/-- C3 (amended): the assignment- and project-member-notification `sendEmail`
functions return `false` (a skipped send) with zero network I/O when host,
username or password is empty or absent; the task-notification `sendEmail`
lacks the guard and always makes exactly one connection attempt. -/
theorem missing_config_guarded_skip (env : SmtpEnv) (toAddr subject body : String)
    (o : Oracle) (h : missingConfig env = true) :
    AssignmentNotification.sendEmail env toAddr subject body o = ([], Outcome.ret false) ∧
    ProjectMemberNotification.sendEmail env toAddr subject body o = ([], Outcome.ret false) ∧
    ((TaskNotification.sendEmail env toAddr subject body o).1.countP Event.isConnect) = 1 := by
  refine ⟨?_, ?_, ?_⟩
  · simp [AssignmentNotification.sendEmail, h]
  · simp [ProjectMemberNotification.sendEmail, h]
  · unfold TaskNotification.sendEmail sendEmailCore
    rcases o with ⟨co, tls, rs, ws⟩
    cases co
    · simp [Event.isConnect, List.countP_cons]
    · cases tls
      · simp [Event.isConnect, List.countP_cons]
      · cases hok : (runScript (script (optStr env.SMTP_HOST) (optStr env.SMTP_USER)
            (optStr env.SMTP_PASSWORD) toAddr subject body) rs ws).2
        · simp [hok, Event.isConnect, List.countP_cons, runScript_countConnect]
        · simp [hok, Event.isConnect, List.countP_cons, List.countP_append,
            runScript_countConnect]

/-- Witness for `missing_config_guarded_skip` at the all-unset environment. -/
theorem missing_config_guarded_skip_witness :
    AssignmentNotification.sendEmail Fixtures.envNone ("a@b.c") ("s") ("b")
        Fixtures.connectFailOracle = ([], Outcome.ret false) ∧
    ProjectMemberNotification.sendEmail Fixtures.envNone ("a@b.c") ("s") ("b")
        Fixtures.connectFailOracle = ([], Outcome.ret false) ∧
    ((TaskNotification.sendEmail Fixtures.envNone ("a@b.c") ("s") ("b")
        Fixtures.connectFailOracle).1.countP Event.isConnect) = 1 :=
  missing_config_guarded_skip Fixtures.envNone ("a@b.c") ("s") ("b")
    Fixtures.connectFailOracle (by decide)

/-- C4 counterexample: when the server answers the Base64 password line with
`535 5.7.8 authentication failed`, `sendEmail` neither returns an
authentication error nor stops: the fifth command it writes is still
`MAIL FROM:<alice>` and the call returns `true`. -/
theorem auth_rejected_counterexample :
    ((writesOf (TaskNotification.sendEmail Fixtures.envEx ("rcpt@example.com") ("Hello")
        ("<p>Hi</p>") Fixtures.authRejectOracle).1).get? 4 =
      some ("MAIL FROM:<alice>\r\n")) ∧
    (TaskNotification.sendEmail Fixtures.envEx ("rcpt@example.com") ("Hello")
        ("<p>Hi</p>") Fixtures.authRejectOracle).2 = Outcome.ret true :=
  ⟨rfl, rfl⟩

/-- C4 (amended): the reply to the password line is read and ignored —
whatever it is, `535` included, `sendEmail` proceeds to write
`MAIL FROM:<username>` as its fifth command, finishes the dialogue, closes
the connection at the very end, and returns `true` whenever all reads and
writes succeed. -/
theorem auth_reply_ignored_mailfrom_sent (env : SmtpEnv) (toAddr subject body : String)
    (rp : String) (r0 r1 r2 r3 r5 r6 r7 r8 r9 : String) :
    ((writesOf (TaskNotification.sendEmail env toAddr subject body
        ⟨true, true, [some r0, some r1, some r2, some r3, some rp, some r5, some r6,
          some r7, some r8, some r9],
         [true, true, true, true, true, true, true, true, true]⟩).1).get? 4 =
      some ("MAIL FROM:<" ++ optStr env.SMTP_USER ++ ">\r\n")) ∧
    (TaskNotification.sendEmail env toAddr subject body
        ⟨true, true, [some r0, some r1, some r2, some r3, some rp, some r5, some r6,
          some r7, some r8, some r9],
         [true, true, true, true, true, true, true, true, true]⟩).2 = Outcome.ret true ∧
    (TaskNotification.sendEmail env toAddr subject body
        ⟨true, true, [some r0, some r1, some r2, some r3, some rp, some r5, some r6,
          some r7, some r8, some r9],
         [true, true, true, true, true, true, true, true, true]⟩).1.getLast? =
      some Event.close :=
  ⟨rfl, rfl, rfl⟩

/-- C5: on a session where every read and write succeeds, the wire dialogue
is exactly, and strictly in this order: connect; TLS upgrade; read greeting;
write `EHLO <host>`; write `AUTH LOGIN`; write the Base64 username line;
write the Base64 password line; write `MAIL FROM:<username>`; write
`RCPT TO:<to>`; write `DATA`; write the message content; write `QUIT` — each
command one CRLF-terminated line, each write followed by exactly one read of
the server response before the next write, and a final close. -/
theorem smtp_dialogue_order (env : SmtpEnv) (toAddr subject body : String)
    (r0 r1 r2 r3 r4 r5 r6 r7 r8 r9 : String) :
    TaskNotification.sendEmail env toAddr subject body
      ⟨true, true, [some r0, some r1, some r2, some r3, some r4, some r5, some r6,
        some r7, some r8, some r9],
       [true, true, true, true, true, true, true, true, true]⟩ =
    ([Event.connect env.SMTP_HOST (jsParseInt (jsOr env.SMTP_PORT ("465"))),
      Event.startTls env.SMTP_HOST,
      Event.read 1024 r0,
      Event.write ("EHLO " ++ optStr env.SMTP_HOST ++ "\r\n"),
      Event.read 1024 r1,
      Event.write ("AUTH LOGIN\r\n"),
      Event.read 1024 r2,
      Event.write (btoa (optStr env.SMTP_USER) ++ "\r\n"),
      Event.read 1024 r3,
      Event.write (btoa (optStr env.SMTP_PASSWORD) ++ "\r\n"),
      Event.read 1024 r4,
      Event.write ("MAIL FROM:<" ++ optStr env.SMTP_USER ++ ">\r\n"),
      Event.read 1024 r5,
      Event.write ("RCPT TO:<" ++ toAddr ++ ">\r\n"),
      Event.read 1024 r6,
      Event.write ("DATA\r\n"),
      Event.read 1024 r7,
      Event.write (emailContent (optStr env.SMTP_USER) toAddr subject body),
      Event.read 1024 r8,
      Event.write ("QUIT\r\n"),
      Event.read 1024 r9,
      Event.close], Outcome.ret true) :=
  rfl

/-- C6: the DATA-phase payload transmitted on the wire (the eighth command
write of a successful session) is exactly the `From`/`To`/`Subject`/
`Content-Type: text/html; charset=utf-8` header block, a blank line, the
HTML body inserted verbatim, and a terminating line containing a single dot
— no CR/LF escaping of subject or body and no dot-stuffing. -/
theorem data_payload_exact (env : SmtpEnv) (toAddr subject body : String)
    (r0 r1 r2 r3 r4 r5 r6 r7 r8 r9 : String) :
    (writesOf (TaskNotification.sendEmail env toAddr subject body
        ⟨true, true, [some r0, some r1, some r2, some r3, some r4, some r5, some r6,
          some r7, some r8, some r9],
         [true, true, true, true, true, true, true, true, true]⟩).1).get? 7 =
      some ("From: " ++ optStr env.SMTP_USER ++ "\r\nTo: " ++ toAddr ++ "\r\nSubject: " ++
        subject ++ "\r\nContent-Type: text/html; charset=utf-8\r\n\r\n" ++ body ++
        "\r\n.\r\n") :=
  rfl

/-- C7: every call to `sendEmail` performs exactly one TCP connection
attempt, whatever the oracle does — connect failure, TLS failure, any read or
write failure, and full success all contain exactly one connect event, so
nothing is ever retried. -/
theorem single_connection_attempt (env : SmtpEnv) (toAddr subject body : String)
    (o : Oracle) :
    ((TaskNotification.sendEmail env toAddr subject body o).1.countP Event.isConnect) = 1 := by
  unfold TaskNotification.sendEmail sendEmailCore
  rcases o with ⟨co, tls, rs, ws⟩
  cases co
  · simp [Event.isConnect, List.countP_cons]
  · cases tls
    · simp [Event.isConnect, List.countP_cons]
    · cases hok : (runScript (script (optStr env.SMTP_HOST) (optStr env.SMTP_USER)
          (optStr env.SMTP_PASSWORD) toAddr subject body) rs ws).2
      · simp [hok, Event.isConnect, List.countP_cons, runScript_countConnect]
      · simp [hok, Event.isConnect, List.countP_cons, List.countP_append,
          runScript_countConnect]

/-- C8: every server response is read by a single read call into a fixed
1024-byte buffer: each read event of any run carries buffer size 1024 and
consumes at most 1024 bytes, and a run contains at most ten reads — one per
response, never a loop assembling longer responses. -/
theorem bounded_single_reads (env : SmtpEnv) (toAddr subject body : String) (o : Oracle) :
    (∀ e ∈ (TaskNotification.sendEmail env toAddr subject body o).1,
        e.isRead = true → ∃ r, e = Event.read 1024 r ∧ readBytes e ≤ 1024) ∧
    ((TaskNotification.sendEmail env toAddr subject body o).1.countP Event.isRead ≤ 10) := by
  have hsc : (script (optStr env.SMTP_HOST) (optStr env.SMTP_USER)
      (optStr env.SMTP_PASSWORD) toAddr subject body).countP Act.isRead = 10 := rfl
  constructor
  · intro e he hread
    unfold TaskNotification.sendEmail sendEmailCore at he
    rcases o with ⟨co, tls, rs, ws⟩
    cases co
    · simp at he
      subst he; simp [Event.isRead] at hread
    · cases tls
      · simp at he
        rcases he with rfl | rfl <;> simp [Event.isRead] at hread
      · cases hok : (runScript (script (optStr env.SMTP_HOST) (optStr env.SMTP_USER)
            (optStr env.SMTP_PASSWORD) toAddr subject body) rs ws).2 <;>
          simp [hok] at he
        · rcases he with rfl | rfl | h
          · simp [Event.isRead] at hread
          · simp [Event.isRead] at hread
          · rcases runScript_events _ _ _ e h with ⟨r, rfl⟩ | ⟨d, rfl⟩
            · exact ⟨r, rfl, by simp [readBytes]⟩
            · simp [Event.isRead] at hread
        · rcases he with rfl | rfl | h
          · simp [Event.isRead] at hread
          · simp [Event.isRead] at hread
          · rcases h with h | rfl
            · rcases runScript_events _ _ _ e h with ⟨r, rfl⟩ | ⟨d, rfl⟩
              · exact ⟨r, rfl, by simp [readBytes]⟩
              · simp [Event.isRead] at hread
            · simp [Event.isRead] at hread
  · unfold TaskNotification.sendEmail sendEmailCore
    rcases o with ⟨co, tls, rs, ws⟩
    have hle := runScript_countRead_le (script (optStr env.SMTP_HOST) (optStr env.SMTP_USER)
      (optStr env.SMTP_PASSWORD) toAddr subject body) rs ws
    rw [hsc] at hle
    cases co
    · simp [Event.isRead, List.countP_cons]
    · cases tls
      · simp [Event.isRead, List.countP_cons]
      · cases hok : (runScript (script (optStr env.SMTP_HOST) (optStr env.SMTP_USER)
            (optStr env.SMTP_PASSWORD) toAddr subject body) rs ws).2
        · simp only [hok, if_neg, List.countP_cons, Event.isRead]
          simp [Event.isRead]
          omega
        · simp only [hok, List.countP_cons, List.countP_append, Event.isRead]
          simp [Event.isRead, Event.isClose]
          omega

/-- C9: reply noninterference — two runs of `sendEmail` that differ only in
the bytes the server sends at each response point, with every read and write
succeeding, write exactly the same command bytes in the same order and both
return `true`: no reply content is parsed or influences control flow or the
result. -/
theorem reply_noninterference (env : SmtpEnv) (toAddr subject body : String)
    (r0 r1 r2 r3 r4 r5 r6 r7 r8 r9 : String)
    (q0 q1 q2 q3 q4 q5 q6 q7 q8 q9 : String) :
    writesOf (TaskNotification.sendEmail env toAddr subject body
      ⟨true, true, [some r0, some r1, some r2, some r3, some r4, some r5, some r6,
        some r7, some r8, some r9],
       [true, true, true, true, true, true, true, true, true]⟩).1 =
      writesOf (TaskNotification.sendEmail env toAddr subject body
        ⟨true, true, [some q0, some q1, some q2, some q3, some q4, some q5, some q6,
          some q7, some q8, some q9],
         [true, true, true, true, true, true, true, true, true]⟩).1 ∧
    (TaskNotification.sendEmail env toAddr subject body
      ⟨true, true, [some r0, some r1, some r2, some r3, some r4, some r5, some r6,
        some r7, some r8, some r9],
       [true, true, true, true, true, true, true, true, true]⟩).2 = Outcome.ret true ∧
    (TaskNotification.sendEmail env toAddr subject body
      ⟨true, true, [some q0, some q1, some q2, some q3, some q4, some q5, some q6,
        some q7, some q8, some q9],
       [true, true, true, true, true, true, true, true, true]⟩).2 = Outcome.ret true :=
  ⟨rfl, rfl, rfl⟩

/-- C10: with SMTP configuration absent, the assignment- and
project-member-notification handlers still answer 200 with
`{"success":true,"message":"Notification sent"}`: `sendEmail` returns `false`
instead of throwing, the handlers discard that value, and the response is
identical to the one produced when a fully-configured send succeeds — the
HTTP caller cannot tell a sent email from a skipped one. -/
theorem handlers_success_on_missing_config (env env2 : SmtpEnv) (o o2 : Oracle)
    (toAddr subject body toAddr2 subject2 body2 : String)
    (h : missingConfig env = true)
    (h2 : (AssignmentNotification.sendEmail env2 toAddr2 subject2 body2 o2).2 =
      Outcome.ret true) :
    AssignmentNotification.sendEmail env toAddr subject body o =
      ([], Outcome.ret false) ∧
    Handler.assignmentRespond env o toAddr subject body =
      ⟨200, Handler.RespBody.json Handler.successJson⟩ ∧
    Handler.projectMemberRespond env o toAddr subject body =
      ⟨200, Handler.RespBody.json Handler.successJson⟩ ∧
    Handler.assignmentRespond env2 o2 toAddr2 subject2 body2 =
      ⟨200, Handler.RespBody.json Handler.successJson⟩ := by
  refine ⟨?_, ?_, ?_, ?_⟩
  · simp [AssignmentNotification.sendEmail, h]
  · simp [Handler.assignmentRespond, AssignmentNotification.sendEmail, h]
  · simp [Handler.projectMemberRespond, ProjectMemberNotification.sendEmail, h]
  · unfold Handler.assignmentRespond
    rw [h2]

/-- Witness for `handlers_success_on_missing_config`: the unset environment
skips, and the fully-configured environment with a cooperating server
produces the identical 200 response. -/
theorem handlers_success_on_missing_config_witness :
    AssignmentNotification.sendEmail Fixtures.envNone ("a@b.c") ("s") ("b")
        Fixtures.connectFailOracle = ([], Outcome.ret false) ∧
    Handler.assignmentRespond Fixtures.envNone Fixtures.connectFailOracle
        ("a@b.c") ("s") ("b") = ⟨200, Handler.RespBody.json Handler.successJson⟩ ∧
    Handler.projectMemberRespond Fixtures.envNone Fixtures.connectFailOracle
        ("a@b.c") ("s") ("b") = ⟨200, Handler.RespBody.json Handler.successJson⟩ ∧
    Handler.assignmentRespond Fixtures.envEx Fixtures.okOracle
        ("x@y.z") ("s2") ("b2") = ⟨200, Handler.RespBody.json Handler.successJson⟩ :=
  handlers_success_on_missing_config Fixtures.envNone Fixtures.envEx
    Fixtures.connectFailOracle Fixtures.okOracle ("a@b.c") ("s") ("b")
    ("x@y.z") ("s2") ("b2") (by decide) (by decide)
